import Mathlib

/-!
Verification of the SEO report aggregation and synthesis pipeline.

The definitions below are a shallow embedding of the TypeScript sources:
`src/lib/executive-summary-generator.ts`, `src/lib/recommendations-engine.ts`,
`src/lib/seo-report-generator.ts`, `src/lib/html-report-template.ts` and the
report-generation POST route.  JavaScript numbers are modelled as `ℚ`,
string-union types as inductive enumerations, optional/absent values as
`Option`, and code paths that can throw as `Except String`.
-/

set_option maxHeartbeats 1000000

/-- Priority / impact levels: the string union "high" | "medium" | "low". -/
inductive Severity where
  | high
  | medium
  | low
deriving DecidableEq, Repr

/-- Recommendation categories: "technical" | "content" | "keywords" | "backlinks". -/
inductive RecCategory where
  | technical
  | content
  | keywords
  | backlinks
deriving DecidableEq, Repr

/-- Core-web-vital categorical score: "good" | "needs-improvement" | "poor". -/
inductive CWVScore where
  | good
  | needsImprovement
  | poor
deriving DecidableEq, Repr

/-- Issue type: "error" | "warning" | "info". -/
inductive IssueType where
  | error
  | warning
  | info
deriving DecidableEq, Repr

/-- Overall health grade: "excellent" | "good" | "fair" | "poor". -/
inductive Health where
  | excellent
  | good
  | fair
  | poor
deriving DecidableEq, Repr

/-- Traffic status: "increasing" | "stable" | "decreasing". -/
inductive TrafficStatus where
  | increasing
  | stable
  | decreasing
deriving DecidableEq, Repr

/-- Competitive position: "strong" | "moderate" | "weak". -/
inductive CompetitivePosition where
  | strong
  | moderate
  | weak
deriving DecidableEq, Repr

/-- Timeframe: "1-2 weeks" | "1-2 months" | "3+ months". -/
inductive Timeframe where
  | weeks1to2
  | months1to2
  | months3plus
deriving DecidableEq, Repr

/-- One core-web-vital metric: a display value and a categorical score. -/
structure CWVMetric where
  value : String
  score : CWVScore
deriving DecidableEq, Repr

/-- The coreWebVitals triple of `TechnicalSEOData`. -/
structure CoreWebVitals where
  lcp : CWVMetric
  cls : CWVMetric
  fid : CWVMetric
deriving DecidableEq, Repr

/-- An entry of `TechnicalSEOData.issues`. -/
structure TechIssue where
  type : IssueType
  title : String
  description : String
  impact : Severity
deriving DecidableEq, Repr

/-- `TechnicalSEOData` from `src/lib/types/report-types.ts`. -/
structure TechnicalSEOData where
  coreWebVitals : CoreWebVitals
  performanceScore : ℚ
  seoScore : ℚ
  accessibilityScore : ℚ
  bestPracticesScore : ℚ
  issues : List TechIssue
deriving DecidableEq, Repr

/-- A count together with a percentage. -/
structure CountPct where
  count : ℚ
  percentage : ℚ
deriving DecidableEq, Repr

/-- `metadataCompleteness` of `ContentAuditData`. -/
structure MetadataCompleteness where
  titleTags : CountPct
  metaDescriptions : CountPct
  h1Tags : CountPct
deriving DecidableEq, Repr

/-- `contentFreshness` of `ContentAuditData.contentMetrics`. -/
structure ContentFreshness where
  fresh : ℚ
  stale : ℚ
deriving DecidableEq, Repr

/-- `contentMetrics` of `ContentAuditData`. -/
structure ContentMetrics where
  averageWordCount : ℚ
  pagesWithCTAs : CountPct
  contentFreshness : ContentFreshness
deriving DecidableEq, Repr

/-- An entry of `ContentAuditData.topPages`. -/
structure TopPage where
  url : String
  title : String
  wordCount : ℚ
  hasMetaDescription : Bool
  hasH1 : Bool
  hasCTA : Bool
  lastModified : Option String
deriving DecidableEq, Repr

/-- An entry of `ContentAuditData.issues`. -/
structure ContentIssue where
  type : IssueType
  title : String
  description : String
  affectedPages : ℚ
deriving DecidableEq, Repr

/-- `ContentAuditData` from `src/lib/types/report-types.ts`. -/
structure ContentAuditData where
  totalPages : ℚ
  indexedPages : ℚ
  metadataCompleteness : MetadataCompleteness
  contentMetrics : ContentMetrics
  topPages : List TopPage
  issues : List ContentIssue
deriving DecidableEq, Repr

/-- An entry of the best/worst/new keyword lists. -/
structure KeywordEntry where
  keyword : String
  position : ℚ
  volume : ℚ
  difficulty : ℚ
  url : String
  change : ℚ
deriving DecidableEq, Repr

/-- `distribution` of `KeywordsData`. -/
structure KeywordDistribution where
  top3 : CountPct
  top10 : CountPct
  top50 : CountPct
deriving DecidableEq, Repr

/-- `performingKeywords` of `KeywordsData`. -/
structure PerformingKeywords where
  best : List KeywordEntry
  worst : List KeywordEntry
  new : List KeywordEntry
deriving DecidableEq, Repr

/-- `organicTraffic` of `KeywordsData`. -/
structure OrganicTraffic where
  estimated : ℚ
  change : ℚ
deriving DecidableEq, Repr

/-- `KeywordsData` from `src/lib/types/report-types.ts`. -/
structure KeywordsData where
  totalKeywords : ℚ
  indexedKeywords : ℚ
  distribution : KeywordDistribution
  performingKeywords : PerformingKeywords
  opportunities : List KeywordEntry
  organicTraffic : OrganicTraffic
deriving DecidableEq, Repr

/-- An entry of the new/lost/top backlink buckets. -/
structure BacklinkEntry where
  fromUrl : String
  fromDomain : String
  anchorText : String
  type : String
  domainRating : ℚ
  traffic : ℚ
  firstSeen : String
  lastSeen : String
deriving DecidableEq, Repr

/-- `backlinks` of `BacklinksData`. -/
structure BacklinkBuckets where
  new : List BacklinkEntry
  lost : List BacklinkEntry
  top : List BacklinkEntry
deriving DecidableEq, Repr

/-- An entry of `BacklinksData.anchorTexts`. -/
structure AnchorTextEntry where
  text : String
  count : ℚ
  percentage : ℚ
deriving DecidableEq, Repr

/-- `referringDomainsGrowth` of `BacklinksData`. -/
structure ReferringDomainsGrowth where
  thisMonth : ℚ
  lastMonth : ℚ
  change : ℚ
deriving DecidableEq, Repr

/-- An entry of `BacklinksData.topReferringDomains`. -/
structure TopReferringDomain where
  domain : String
  backlinks : ℚ
  domainRating : ℚ
  traffic : ℚ
deriving DecidableEq, Repr

/-- `BacklinksData` from `src/lib/types/report-types.ts`. -/
structure BacklinksData where
  totalBacklinks : ℚ
  referringDomains : ℚ
  domainRating : ℚ
  organicTraffic : ℚ
  backlinks : BacklinkBuckets
  anchorTexts : List AnchorTextEntry
  referringDomainsGrowth : ReferringDomainsGrowth
  topReferringDomains : List TopReferringDomain
deriving DecidableEq, Repr

/-- `currentRanking` of `ExecutiveSummary`. -/
structure CurrentRanking where
  keywordsInTop10 : ℚ
  estimatedTraffic : ℚ
  domainAuthority : ℚ
deriving DecidableEq, Repr

/-- `ExecutiveSummary` from `src/lib/types/report-types.ts`. -/
structure ExecutiveSummary where
  overallHealth : Health
  currentRanking : CurrentRanking
  quickWins : List String
  urgentIssues : List String
  trafficStatus : TrafficStatus
  competitivePosition : CompetitivePosition
deriving DecidableEq, Repr

/-- `Recommendation` from `src/lib/types/report-types.ts`. -/
structure Recommendation where
  priority : Severity
  category : RecCategory
  title : String
  description : String
  estimatedImpact : Severity
  timeframe : Timeframe
  resources : List String
deriving DecidableEq, Repr

/-- `SEOReportData` from `src/lib/types/report-types.ts`; `executiveSummary` and
`recommendations` are optional fields. -/
structure SEOReportData where
  url : String
  domain : String
  analyzedAt : String
  technicalSeo : TechnicalSEOData
  contentAudit : ContentAuditData
  keywords : KeywordsData
  backlinks : BacklinksData
  executiveSummary : Option ExecutiveSummary
  recommendations : Option (List Recommendation)
deriving DecidableEq, Repr

/-- The anonymous input type shared by `ExecutiveSummaryGenerator.generate` and
`RecommendationsEngine.generate`: the four module payloads plus the url. -/
structure ModulesInput where
  technicalSeo : TechnicalSEOData
  contentAudit : ContentAuditData
  keywords : KeywordsData
  backlinks : BacklinksData
  url : String
deriving DecidableEq, Repr

namespace ExecutiveSummaryGenerator

/-- `calculateOverallHealth` of `src/lib/executive-summary-generator.ts`
(lines 38-66) on inputs where both guarded modules are present: averages
performanceScore, seoScore and the mean of the titleTags and metaDescriptions
percentages, then maps the average through the 85/70/50 thresholds. -/
def calculateOverallHealth (data : ModulesInput) : Health :=
  let techScore := data.technicalSeo.performanceScore
  let seoScore := data.technicalSeo.seoScore
  let metadataCompleteness :=
    (data.contentAudit.metadataCompleteness.titleTags.percentage +
     data.contentAudit.metadataCompleteness.metaDescriptions.percentage) / 2
  let averageScore := (techScore + seoScore + metadataCompleteness) / 3
  if 85 ≤ averageScore then .excellent
  else if 70 ≤ averageScore then .good
  else if 50 ≤ averageScore then .fair
  else .poor

/-- `identifyQuickWins` (lines 68-104): a fixed ordered checklist of positive
conditions, one string pushed per satisfied condition, truncated to 5. -/
def identifyQuickWins (data : ModulesInput) : List String :=
  let wins : List String :=
    (if data.technicalSeo.coreWebVitals.cls.score = CWVScore.good then
       ["âœ… Excellent layout stability (CLS score)"] else [])
    ++ (if 90 ≤ data.technicalSeo.seoScore then
       ["âœ… Strong SEO foundation in place"] else [])
    ++ (if 800 < data.contentAudit.contentMetrics.averageWordCount then
       ["âœ… Good content depth with adequate word count"] else [])
    ++ (if 80 < data.contentAudit.metadataCompleteness.titleTags.percentage then
       ["âœ… Most pages have proper title tags"] else [])
    ++ (if 30 ≤ data.keywords.distribution.top10.percentage then
       ["âœ… Strong keyword rankings in top 10 positions"] else [])
    ++ (if 0 < data.backlinks.referringDomainsGrowth.change then
       ["âœ… Positive backlink growth trend"] else [])
    ++ (if 70 < data.backlinks.domainRating then
       ["âœ… High domain authority"] else [])
  wins.take 5

/-- `identifyUrgentIssues` (lines 106-142): a fixed ordered checklist of
negative conditions, one string pushed per satisfied condition, truncated to 5. -/
def identifyUrgentIssues (data : ModulesInput) : List String :=
  let issues : List String :=
    (if data.technicalSeo.performanceScore < 50 then
       ["ðŸš¨ Poor performance score - immediate optimization needed"] else [])
    ++ (if data.technicalSeo.coreWebVitals.lcp.score = CWVScore.poor then
       ["ðŸš¨ Slow page loading speed (LCP > 4s)"] else [])
    ++ (if data.contentAudit.metadataCompleteness.titleTags.percentage < 50 then
       ["ðŸš¨ Many pages missing title tags"] else [])
    ++ (if data.contentAudit.metadataCompleteness.metaDescriptions.percentage < 50 then
       ["ðŸš¨ Many pages missing meta descriptions"] else [])
    ++ (if data.contentAudit.metadataCompleteness.h1Tags.percentage < 30 then
       ["ðŸš¨ Most pages lack proper H1 headings"] else [])
    ++ (if data.keywords.distribution.top10.percentage < 10 then
       ["ðŸš¨ Very few keywords ranking in top 10"] else [])
    ++ (if data.backlinks.referringDomainsGrowth.change < -10 then
       ["ðŸš¨ Significant backlink loss detected"] else [])
  issues.take 5

/-- `analyzeTrafficStatus` (lines 144-149). -/
def analyzeTrafficStatus (data : ModulesInput) : TrafficStatus :=
  let trafficChange := data.keywords.organicTraffic.change
  if 5 < trafficChange then .increasing
  else if trafficChange < -5 then .decreasing
  else .stable

/-- `assessCompetitivePosition` (lines 151-159). -/
def assessCompetitivePosition (data : ModulesInput) : CompetitivePosition :=
  let domainRating := data.backlinks.domainRating
  let top10Keywords := data.keywords.distribution.top10.percentage
  let overallScore := (domainRating + top10Keywords) / 2
  if 70 ≤ overallScore then .strong
  else if 40 ≤ overallScore then .moderate
  else .weak

/-- `ExecutiveSummaryGenerator.generate` (lines 11-36) on a fully present
input of the declared TypeScript type. -/
def generate (data : ModulesInput) : ExecutiveSummary :=
  { overallHealth := calculateOverallHealth data
    currentRanking :=
      { keywordsInTop10 := data.keywords.distribution.top10.count
        estimatedTraffic := data.keywords.organicTraffic.estimated
        domainAuthority := data.backlinks.domainRating }
    quickWins := identifyQuickWins data
    urgentIssues := identifyUrgentIssues data
    trafficStatus := analyzeTrafficStatus data
    competitivePosition := assessCompetitivePosition data }

end ExecutiveSummaryGenerator

/-- An input object in which any of the four module payloads may be absent
(`undefined` at run time, as the route can pass unvalidated JSON through the
TypeScript types). -/
structure PartialModulesInput where
  technicalSeo : Option TechnicalSEOData
  contentAudit : Option ContentAuditData
  keywords : Option KeywordsData
  backlinks : Option BacklinksData
  url : String
deriving DecidableEq, Repr

/-- A JavaScript property access on a possibly-undefined value: reading a
property of `undefined` throws a TypeError, modelled as `Except.error`. -/
def jsDeref {α : Type} : Option α → Except String α
  | none => .error "TypeError: Cannot read properties of undefined"
  | some a => .ok a

namespace ExecutiveSummaryGenerator

/-- `calculateOverallHealth` under JavaScript semantics when modules may be
absent: the function explicitly guards `technicalSeo` and `contentAudit`
(lines 43-51), returning "poor" for each, and dereferences nothing else, so it
never throws. -/
def calculateOverallHealthDyn (data : PartialModulesInput) : Except String Health :=
  match data.technicalSeo with
  | none => .ok .poor
  | some tech =>
    match data.contentAudit with
    | none => .ok .poor
    | some content =>
      let metadataCompleteness :=
        (content.metadataCompleteness.titleTags.percentage +
         content.metadataCompleteness.metaDescriptions.percentage) / 2
      let averageScore := (tech.performanceScore + tech.seoScore + metadataCompleteness) / 3
      .ok (if 85 ≤ averageScore then .excellent
           else if 70 ≤ averageScore then .good
           else if 50 ≤ averageScore then .fair
           else .poor)

/-- `identifyQuickWins` under JavaScript semantics: it has no guards and reads
properties of all four modules; the first read of an absent module throws.
The modules are first read in the order technicalSeo (line 72), contentAudit
(line 81), keywords (line 90), backlinks (line 95), so the dereferences are
hoisted in that order; with all four present the body is the static one. -/
def identifyQuickWinsDyn (data : PartialModulesInput) : Except String (List String) := do
  let tech ← jsDeref data.technicalSeo
  let content ← jsDeref data.contentAudit
  let kw ← jsDeref data.keywords
  let bl ← jsDeref data.backlinks
  pure (identifyQuickWins ⟨tech, content, kw, bl, data.url⟩)

/-- `identifyUrgentIssues` under JavaScript semantics; module first-read order
is technicalSeo (line 110), contentAudit (line 119), keywords (line 132),
backlinks (line 137). -/
def identifyUrgentIssuesDyn (data : PartialModulesInput) : Except String (List String) := do
  let tech ← jsDeref data.technicalSeo
  let content ← jsDeref data.contentAudit
  let kw ← jsDeref data.keywords
  let bl ← jsDeref data.backlinks
  pure (identifyUrgentIssues ⟨tech, content, kw, bl, data.url⟩)

/-- `analyzeTrafficStatus` under JavaScript semantics: reads only keywords. -/
def analyzeTrafficStatusDyn (data : PartialModulesInput) : Except String TrafficStatus := do
  let kw ← jsDeref data.keywords
  pure (if 5 < kw.organicTraffic.change then .increasing
        else if kw.organicTraffic.change < -5 then .decreasing
        else .stable)

/-- `assessCompetitivePosition` under JavaScript semantics: reads backlinks
(line 152) then keywords (line 153). -/
def assessCompetitivePositionDyn (data : PartialModulesInput) :
    Except String CompetitivePosition := do
  let bl ← jsDeref data.backlinks
  let kw ← jsDeref data.keywords
  let overallScore := (bl.domainRating + kw.distribution.top10.percentage) / 2
  pure (if 70 ≤ overallScore then .strong
        else if 40 ≤ overallScore then .moderate
        else .weak)

/-- `ExecutiveSummaryGenerator.generate` under JavaScript semantics when module
payloads may be absent: the five helpers run in source order (lines 18-22), and
the record literal (lines 24-35) then reads `data.keywords.distribution` and
`data.backlinks.domainRating`. -/
def generateDyn (data : PartialModulesInput) : Except String ExecutiveSummary := do
  let overallHealth ← calculateOverallHealthDyn data
  let quickWins ← identifyQuickWinsDyn data
  let urgentIssues ← identifyUrgentIssuesDyn data
  let trafficStatus ← analyzeTrafficStatusDyn data
  let competitivePosition ← assessCompetitivePositionDyn data
  let kw ← jsDeref data.keywords
  let bl ← jsDeref data.backlinks
  pure { overallHealth
         currentRanking :=
           { keywordsInTop10 := kw.distribution.top10.count
             estimatedTraffic := kw.organicTraffic.estimated
             domainAuthority := bl.domainRating }
         quickWins
         urgentIssues
         trafficStatus
         competitivePosition }

end ExecutiveSummaryGenerator

namespace RecommendationsEngine

/-- The rule recommendation pushed when `performanceScore < 60`
(`src/lib/recommendations-engine.ts` lines 33-43). -/
def perfRec (performanceScore : ℚ) : Recommendation :=
  { priority := .high
    category := .technical
    title := "Improve Page Performance"
    description := "Current performance score is " ++ toString performanceScore ++
      "/100. Optimize images, minify CSS/JS, and implement caching."
    estimatedImpact := .high
    timeframe := .months1to2
    resources := ["Web developer", "Performance optimization tools", "CDN service"] }

/-- The rule recommendation pushed when `lcp.score === "poor"` (lines 46-56). -/
def lcpRec (lcpValue : String) : Recommendation :=
  { priority := .high
    category := .technical
    title := "Fix Largest Contentful Paint (LCP)"
    description := "LCP is " ++ lcpValue ++
      ", which is poor. Optimize server response times and critical resources."
    estimatedImpact := .high
    timeframe := .weeks1to2
    resources := ["Technical developer", "Server optimization", "Image optimization tools"] }

/-- The rule recommendation pushed when `cls.score === "poor"` (lines 58-68). -/
def clsRec (clsValue : String) : Recommendation :=
  { priority := .medium
    category := .technical
    title := "Reduce Cumulative Layout Shift (CLS)"
    description := "CLS is " ++ clsValue ++
      ". Add size attributes to images and reserve space for dynamic content."
    estimatedImpact := .medium
    timeframe := .weeks1to2
    resources := ["Frontend developer", "Design review"] }

/-- The rule recommendation pushed when `seoScore < 80` (lines 71-81). -/
def seoRec : Recommendation :=
  { priority := .medium
    category := .technical
    title := "Improve Technical SEO Score"
    description := "Address technical SEO issues like meta tags, structured data, and crawlability."
    estimatedImpact := .medium
    timeframe := .months1to2
    resources := ["SEO specialist", "Technical developer"] }

/-- `generateTechnicalRecommendations` (lines 29-84). -/
def generateTechnicalRecommendations (data : TechnicalSEOData) : List Recommendation :=
  (if data.performanceScore < 60 then [perfRec data.performanceScore] else [])
  ++ (if data.coreWebVitals.lcp.score = CWVScore.poor then [lcpRec data.coreWebVitals.lcp.value] else [])
  ++ (if data.coreWebVitals.cls.score = CWVScore.poor then [clsRec data.coreWebVitals.cls.value] else [])
  ++ (if data.seoScore < 80 then [seoRec] else [])

/-- The rule recommendation pushed when `titleTags.percentage < 80` (lines 90-101). -/
def titleTagsRec (missingCount : ℚ) : Recommendation :=
  { priority := .high
    category := .content
    title := "Add Missing Title Tags"
    description := toString missingCount ++
      " pages are missing title tags. This directly impacts search rankings."
    estimatedImpact := .high
    timeframe := .weeks1to2
    resources := ["Content writer", "SEO specialist"] }

/-- The rule recommendation pushed when `metaDescriptions.percentage < 80` (lines 104-115). -/
def metaDescriptionsRec (missingCount : ℚ) : Recommendation :=
  { priority := .high
    category := .content
    title := "Write Meta Descriptions"
    description := toString missingCount ++
      " pages need meta descriptions to improve click-through rates from search results."
    estimatedImpact := .medium
    timeframe := .weeks1to2
    resources := ["Content writer", "SEO copywriter"] }

/-- The rule recommendation pushed when `h1Tags.percentage < 70` (lines 118-128). -/
def h1Rec : Recommendation :=
  { priority := .medium
    category := .content
    title := "Add H1 Headings"
    description := "Most pages lack proper H1 headings. Add descriptive H1 tags to improve content structure."
    estimatedImpact := .medium
    timeframe := .weeks1to2
    resources := ["Content editor", "Web developer"] }

/-- The rule recommendation pushed when `stale > fresh` (lines 131-141). -/
def staleContentRec (stale : ℚ) : Recommendation :=
  { priority := .medium
    category := .content
    title := "Update Stale Content"
    description := toString stale ++
      " pages haven't been updated in 18+ months. Refresh content regularly."
    estimatedImpact := .medium
    timeframe := .months3plus
    resources := ["Content team", "Subject matter experts"] }

/-- The rule recommendation pushed when `averageWordCount < 600` (lines 144-154). -/
def wordCountRec (averageWordCount : ℚ) : Recommendation :=
  { priority := .medium
    category := .content
    title := "Increase Content Depth"
    description := "Average word count is " ++ toString averageWordCount ++
      ". Expand content to 800+ words for better rankings."
    estimatedImpact := .medium
    timeframe := .months1to2
    resources := ["Content writers", "Research team"] }

/-- `generateContentRecommendations` (lines 86-157). -/
def generateContentRecommendations (data : ContentAuditData) : List Recommendation :=
  (if data.metadataCompleteness.titleTags.percentage < 80 then
     [titleTagsRec (data.totalPages - data.metadataCompleteness.titleTags.count)] else [])
  ++ (if data.metadataCompleteness.metaDescriptions.percentage < 80 then
     [metaDescriptionsRec (data.totalPages - data.metadataCompleteness.metaDescriptions.count)] else [])
  ++ (if data.metadataCompleteness.h1Tags.percentage < 70 then [h1Rec] else [])
  ++ (if data.contentMetrics.contentFreshness.fresh < data.contentMetrics.contentFreshness.stale then
     [staleContentRec data.contentMetrics.contentFreshness.stale] else [])
  ++ (if data.contentMetrics.averageWordCount < 600 then
     [wordCountRec data.contentMetrics.averageWordCount] else [])

/-- The rule recommendation pushed when `top10.percentage < 20` (lines 163-173). -/
def top10Rec (top10Percentage : ℚ) : Recommendation :=
  { priority := .high
    category := .keywords
    title := "Improve Keyword Rankings"
    description := "Only " ++ toString top10Percentage ++
      "% of keywords rank in top 10. Focus on on-page optimization and content quality."
    estimatedImpact := .high
    timeframe := .months3plus
    resources := ["SEO specialist", "Content team", "Link building"] }

/-- The rule recommendation pushed when `organicTraffic.change <= 0` (lines 176-186). -/
def trafficRec : Recommendation :=
  { priority := .high
    category := .keywords
    title := "Increase Organic Traffic"
    description := "Organic traffic is stagnant. Target new keywords and improve existing content."
    estimatedImpact := .high
    timeframe := .months3plus
    resources := ["Keyword research tools", "Content strategy", "SEO specialist"] }

/-- The rule recommendation pushed when `indexedKeywords < 50` (lines 189-199). -/
def indexedKeywordsRec (indexedKeywords : ℚ) : Recommendation :=
  { priority := .medium
    category := .keywords
    title := "Expand Keyword Coverage"
    description := "Only " ++ toString indexedKeywords ++
      " keywords are ranking. Create content for more relevant keywords."
    estimatedImpact := .medium
    timeframe := .months3plus
    resources := ["Keyword research", "Content creation team"] }

/-- `generateKeywordRecommendations` (lines 159-202). -/
def generateKeywordRecommendations (data : KeywordsData) : List Recommendation :=
  (if data.distribution.top10.percentage < 20 then
     [top10Rec data.distribution.top10.percentage] else [])
  ++ (if data.organicTraffic.change ≤ 0 then [trafficRec] else [])
  ++ (if data.indexedKeywords < 50 then [indexedKeywordsRec data.indexedKeywords] else [])

/-- The rule recommendation pushed when `referringDomains < 100` (lines 208-218). -/
def referringDomainsRec (referringDomains : ℚ) : Recommendation :=
  { priority := .high
    category := .backlinks
    title := "Build More Quality Backlinks"
    description := "Only " ++ toString referringDomains ++
      " referring domains. Focus on earning high-quality backlinks from relevant sites."
    estimatedImpact := .high
    timeframe := .months3plus
    resources := ["Outreach specialist", "Content marketing", "PR team"] }

/-- The rule recommendation pushed when `referringDomainsGrowth.change < 0` (lines 221-231). -/
def backlinkLossRec (change : ℚ) : Recommendation :=
  { priority := .high
    category := .backlinks
    title := "Address Backlink Loss"
    description := "Lost " ++ toString |change| ++
      " referring domains this month. Investigate and recover lost links."
    estimatedImpact := .medium
    timeframe := .months1to2
    resources := ["Link building specialist", "Backlink monitoring tools"] }

/-- The rule recommendation pushed when `domainRating < 50` (lines 234-244). -/
def domainAuthorityRec (domainRating : ℚ) : Recommendation :=
  { priority := .medium
    category := .backlinks
    title := "Improve Domain Authority"
    description := "Domain rating is " ++ toString domainRating ++
      ". Focus on earning high-authority backlinks and improving overall link profile."
    estimatedImpact := .high
    timeframe := .months3plus
    resources := ["Link building strategy", "High-quality content", "Industry partnerships"] }

/-- `generateBacklinkRecommendations` (lines 204-247). -/
def generateBacklinkRecommendations (data : BacklinksData) : List Recommendation :=
  (if data.referringDomains < 100 then [referringDomainsRec data.referringDomains] else [])
  ++ (if data.referringDomainsGrowth.change < 0 then
     [backlinkLossRec data.referringDomainsGrowth.change] else [])
  ++ (if data.domainRating < 50 then [domainAuthorityRec data.domainRating] else [])

/-- The `priorityOrder` map of `prioritizeRecommendations` (line 250). -/
def priorityOrder : Severity → Int
  | .high => 3
  | .medium => 2
  | .low => 1

/-- The `impactOrder` map of `prioritizeRecommendations` (line 251). -/
def impactOrder : Severity → Int
  | .high => 3
  | .medium => 2
  | .low => 1

/-- The comparator passed to `Array.prototype.sort` (lines 253-257). -/
def recComparator (a b : Recommendation) : Int :=
  let priorityDiff := priorityOrder b.priority - priorityOrder a.priority
  if priorityDiff ≠ 0 then priorityDiff
  else impactOrder b.estimatedImpact - impactOrder a.estimatedImpact

/-- The "a sorts no later than b" relation induced by the comparator. -/
def recBefore (a b : Recommendation) : Prop := recComparator a b ≤ 0

instance : DecidableRel recBefore :=
  fun a b => inferInstanceAs (Decidable (recComparator a b ≤ 0))

/-- `prioritizeRecommendations` (lines 249-258): `Array.prototype.sort` with the
comparator above.  ECMAScript requires `sort` to be stable, and insertion sort
is a stable sorting algorithm for the same comparator relation. -/
def prioritizeRecommendations (recommendations : List Recommendation) : List Recommendation :=
  List.insertionSort recBefore recommendations

/-- `RecommendationsEngine.generate` (lines 4-27): concatenate the four
per-module rule outputs in source order, sort, and keep the first 10. -/
def generate (data : ModulesInput) : List Recommendation :=
  (prioritizeRecommendations
    (generateTechnicalRecommendations data.technicalSeo
     ++ generateContentRecommendations data.contentAudit
     ++ generateKeywordRecommendations data.keywords
     ++ generateBacklinkRecommendations data.backlinks)).take 10

end RecommendationsEngine

namespace RecommendationsEngine

/-- The comparator is descending on this combined key: priority is worth four
times impact, so comparing keys is lexicographic priority-then-impact. -/
def recKey (a : Recommendation) : Int :=
  4 * priorityOrder a.priority + impactOrder a.estimatedImpact

theorem priorityOrder_cases (p : Severity) :
    priorityOrder p = 1 ∨ priorityOrder p = 2 ∨ priorityOrder p = 3 := by
  cases p <;> simp [priorityOrder]

theorem impactOrder_cases (p : Severity) :
    impactOrder p = 1 ∨ impactOrder p = 2 ∨ impactOrder p = 3 := by
  cases p <;> simp [impactOrder]

theorem recBefore_iff_key (a b : Recommendation) :
    recBefore a b ↔ recKey b ≤ recKey a := by
  unfold recBefore recComparator recKey
  rcases priorityOrder_cases a.priority with ha | ha | ha <;>
    rcases priorityOrder_cases b.priority with hb | hb | hb <;>
    rcases impactOrder_cases a.estimatedImpact with ia | ia | ia <;>
    rcases impactOrder_cases b.estimatedImpact with ib | ib | ib <;>
    rw [ha, hb, ia, ib] <;> norm_num

instance : IsTotal Recommendation recBefore :=
  ⟨fun a b => by
    rw [recBefore_iff_key, recBefore_iff_key]
    exact le_total (recKey b) (recKey a)⟩

instance : IsTrans Recommendation recBefore :=
  ⟨fun a b c hab hbc => by
    rw [recBefore_iff_key] at *
    omega⟩

/-- The lexicographic "sorts no later" order stated by the spec: strictly
higher priority, or equal priority and no smaller estimated impact. -/
def recLexGE (a b : Recommendation) : Prop :=
  priorityOrder b.priority < priorityOrder a.priority ∨
  (a.priority = b.priority ∧ impactOrder b.estimatedImpact ≤ impactOrder a.estimatedImpact)

theorem priorityOrder_injective {p q : Severity} (h : priorityOrder p = priorityOrder q) :
    p = q := by
  cases p <;> cases q <;> simp_all [priorityOrder]

theorem recLexGE_of_recBefore {a b : Recommendation} (h : recBefore a b) : recLexGE a b := by
  rw [recBefore_iff_key] at h
  unfold recKey at h
  unfold recLexGE
  rcases lt_or_le (priorityOrder b.priority) (priorityOrder a.priority) with hp | hp
  · exact Or.inl hp
  · refine Or.inr ?_
    rcases impactOrder_cases a.estimatedImpact with ia | ia | ia <;>
      rcases impactOrder_cases b.estimatedImpact with ib | ib | ib <;>
      refine ⟨priorityOrder_injective (le_antisymm hp ?_), ?_⟩ <;> omega

end RecommendationsEngine

section CountingLemmas

variable {α : Type}

/-- In a list where elements satisfying `p` always precede those that do not,
if at most `k` elements satisfy `p` then nothing after position `k` does. -/
theorem countP_drop_eq_zero (p : α → Bool) :
    ∀ (l : List α) (k : Nat), l.Pairwise (fun a b => p b = true → p a = true) →
      l.countP p ≤ k → (l.drop k).countP p = 0 := by
  intro l
  induction l with
  | nil => intro k _ _; simp
  | cons x t ih =>
    intro k hpair hcount
    rcases List.pairwise_cons.mp hpair with ⟨hx, ht⟩
    cases k with
    | zero =>
      simp only [List.drop_zero]
      omega
    | succ k =>
      simp only [List.drop_succ_cons]
      by_cases hpx : p x = true
      · exact ih k ht (by simp [List.countP_cons, hpx] at hcount; omega)
      · have ht0 : t.countP p = 0 :=
          List.countP_eq_zero.mpr (fun b hb hpb => hpx (hx b hb hpb))
        have : (t.drop k).countP p ≤ t.countP p :=
          (List.drop_sublist k t).countP_le p
        omega

/-- Truncating after the block of `p`-elements preserves the count of any
predicate `q` that implies `p`. -/
theorem countP_take_of_le (p q : α → Bool) (himp : ∀ a, q a = true → p a = true)
    (l : List α) (k : Nat) (hpair : l.Pairwise (fun a b => p b = true → p a = true))
    (hcount : l.countP p ≤ k) : (l.take k).countP q = l.countP q := by
  conv_rhs => rw [← List.take_append_drop k l]
  rw [List.countP_append]
  have hdrop : (l.drop k).countP p = 0 := countP_drop_eq_zero p l k hpair hcount
  have : (l.drop k).countP q = 0 :=
    List.countP_eq_zero.mpr fun a ha hqa =>
      (List.countP_eq_zero.mp hdrop a ha) (himp a hqa)
  omega

/-- A `p`-element of such a list survives truncation at `k`. -/
theorem mem_take_of_countP_le (p : α → Bool) (l : List α) (k : Nat)
    (hpair : l.Pairwise (fun a b => p b = true → p a = true))
    (hcount : l.countP p ≤ k) {x : α} (hx : x ∈ l) (hpx : p x = true) :
    x ∈ l.take k := by
  have := List.take_append_drop k l
  rw [← this] at hx
  rcases List.mem_append.mp hx with h | h
  · exact h
  · exact absurd hpx
      (List.countP_eq_zero.mp (countP_drop_eq_zero p l k hpair hcount) x h)

end CountingLemmas

section Fixtures

/-- A concrete technical-SEO payload with healthy values (no rule fires). -/
def techFix : TechnicalSEOData :=
  { coreWebVitals :=
      { lcp := ⟨"1.8 s", .good⟩, cls := ⟨"0.05", .good⟩, fid := ⟨"12 ms", .good⟩ }
    performanceScore := 90
    seoScore := 92
    accessibilityScore := 88
    bestPracticesScore := 85
    issues := [] }

/-- A concrete content-audit payload with healthy values (no rule fires). -/
def contentFix : ContentAuditData :=
  { totalPages := 40
    indexedPages := 35
    metadataCompleteness :=
      { titleTags := ⟨38, 95⟩, metaDescriptions := ⟨36, 90⟩, h1Tags := ⟨35, 85⟩ }
    contentMetrics :=
      { averageWordCount := 900
        pagesWithCTAs := ⟨20, 50⟩
        contentFreshness := ⟨30, 10⟩ }
    topPages := []
    issues := [] }

/-- A concrete keywords payload with healthy values (no rule fires). -/
def kwFix : KeywordsData :=
  { totalKeywords := 200
    indexedKeywords := 150
    distribution := { top3 := ⟨10, 5⟩, top10 := ⟨70, 35⟩, top50 := ⟨120, 60⟩ }
    performingKeywords := ⟨[], [], []⟩
    opportunities := []
    organicTraffic := ⟨5000, 10⟩ }

/-- A concrete backlinks payload with healthy values (no rule fires). -/
def blFix : BacklinksData :=
  { totalBacklinks := 1200
    referringDomains := 300
    domainRating := 75
    organicTraffic := 4000
    backlinks := ⟨[], [], []⟩
    anchorTexts := []
    referringDomainsGrowth := ⟨12, 8, 4⟩
    topReferringDomains := [] }

end Fixtures

/-- C1: the claim says that when one of the four module payloads is absent,
`ExecutiveSummaryGenerator.generate` does not raise and returns a summary with
overallHealth "poor".  In the code only `calculateOverallHealth` guards the
missing modules (and only two of them); `identifyQuickWins` dereferences all
four modules unguarded, so the generator throws a TypeError whenever any
module payload is absent and never returns the "poor" summary. -/
theorem c1_generate_throws_on_absent_module (d : PartialModulesInput)
    (h : d.technicalSeo = none ∨ d.contentAudit = none ∨
         d.keywords = none ∨ d.backlinks = none) :
    ExecutiveSummaryGenerator.generateDyn d =
      Except.error "TypeError: Cannot read properties of undefined" := by
  obtain ⟨tOpt, cOpt, kOpt, bOpt, u⟩ := d
  cases tOpt <;> cases cOpt <;> cases kOpt <;> cases bOpt <;>
    first
      | rfl
      | · exfalso
          simp only [Option.some_ne_none, or_self, or_false, false_or] at h

/-- Witness for C1: an input with only `technicalSeo` absent makes the
generator throw. -/
theorem c1_generate_throws_on_absent_module_witness :
    ExecutiveSummaryGenerator.generateDyn
      ⟨none, some contentFix, some kwFix, some blFix, "https://example.com"⟩ =
      Except.error "TypeError: Cannot read properties of undefined" :=
  c1_generate_throws_on_absent_module _ (Or.inl rfl)

/-- The overallHealth threshold map exactly as worded in the spec (§4.1):
average ≥85 → excellent, ≥70 → good, ≥50 → fair, else poor.  Kept as a
separate definition so that the code's `calculateOverallHealth` can be
compared against the spec's formula. -/
def healthGrade (average : ℚ) : Health :=
  if 85 ≤ average then .excellent
  else if 70 ≤ average then .good
  else if 50 ≤ average then .fair
  else .poor

/-- C4: with all four modules present, overallHealth is the mean of
performanceScore, seoScore and the mean of the titleTags and metaDescriptions
percentages, mapped through the 85/70/50 thresholds. -/
theorem c4_overall_health_is_threshold_of_mean (d : ModulesInput) :
    (ExecutiveSummaryGenerator.generate d).overallHealth =
      healthGrade ((d.technicalSeo.performanceScore + d.technicalSeo.seoScore +
        (d.contentAudit.metadataCompleteness.titleTags.percentage +
         d.contentAudit.metadataCompleteness.metaDescriptions.percentage) / 2) / 3) :=
  rfl

/-- The quick-wins checklist strings in their fixed evaluation order. -/
def quickWinsChecklist : List String :=
  ["âœ… Excellent layout stability (CLS score)",
   "âœ… Strong SEO foundation in place",
   "âœ… Good content depth with adequate word count",
   "âœ… Most pages have proper title tags",
   "âœ… Strong keyword rankings in top 10 positions",
   "âœ… Positive backlink growth trend",
   "âœ… High domain authority"]

/-- The urgent-issues checklist strings in their fixed evaluation order. -/
def urgentIssuesChecklist : List String :=
  ["ðŸš¨ Poor performance score - immediate optimization needed",
   "ðŸš¨ Slow page loading speed (LCP > 4s)",
   "ðŸš¨ Many pages missing title tags",
   "ðŸš¨ Many pages missing meta descriptions",
   "ðŸš¨ Most pages lack proper H1 headings",
   "ðŸš¨ Very few keywords ranking in top 10",
   "ðŸš¨ Significant backlink loss detected"]

theorem ite_singleton_sublist {α : Type} {c : Prop} [Decidable c] (a : α) :
    List.Sublist (if c then [a] else []) [a] := by
  split <;> simp

/-- C5: quickWins and urgentIssues of the synthesized summary each have at
most 5 entries and are sublists of the fixed checklists, i.e. one string per
satisfied condition in checklist evaluation order, truncated to 5. -/
theorem c5_quickwins_urgent_bounded_and_ordered (d : ModulesInput) :
    (ExecutiveSummaryGenerator.generate d).quickWins =
      ExecutiveSummaryGenerator.identifyQuickWins d ∧
    (ExecutiveSummaryGenerator.generate d).urgentIssues =
      ExecutiveSummaryGenerator.identifyUrgentIssues d ∧
    (ExecutiveSummaryGenerator.identifyQuickWins d).length ≤ 5 ∧
    (ExecutiveSummaryGenerator.identifyUrgentIssues d).length ≤ 5 ∧
    List.Sublist (ExecutiveSummaryGenerator.identifyQuickWins d) quickWinsChecklist ∧
    List.Sublist (ExecutiveSummaryGenerator.identifyUrgentIssues d) urgentIssuesChecklist := by
  refine ⟨rfl, rfl, List.length_take_le 5 _, List.length_take_le 5 _, ?_, ?_⟩
  · exact List.Sublist.trans (List.take_sublist 5 _)
      (((((((ite_singleton_sublist _).append (ite_singleton_sublist _)).append
        (ite_singleton_sublist _)).append (ite_singleton_sublist _)).append
        (ite_singleton_sublist _)).append
        (ite_singleton_sublist _)).append (ite_singleton_sublist _))
  · exact List.Sublist.trans (List.take_sublist 5 _)
      (((((((ite_singleton_sublist _).append (ite_singleton_sublist _)).append
        (ite_singleton_sublist _)).append (ite_singleton_sublist _)).append
        (ite_singleton_sublist _)).append
        (ite_singleton_sublist _)).append (ite_singleton_sublist _))

/-- C3: the recommendation list is the stable sort of the concatenated fired
rules by the priority-then-impact comparator, truncated to the first 10 after
sorting; it has at most 10 entries and is lexicographically non-increasing on
(priority, estimatedImpact). -/
theorem c3_recommendations_sorted_truncated (d : ModulesInput) :
    RecommendationsEngine.generate d =
      (RecommendationsEngine.prioritizeRecommendations
        (RecommendationsEngine.generateTechnicalRecommendations d.technicalSeo
         ++ RecommendationsEngine.generateContentRecommendations d.contentAudit
         ++ RecommendationsEngine.generateKeywordRecommendations d.keywords
         ++ RecommendationsEngine.generateBacklinkRecommendations d.backlinks)).take 10 ∧
    (RecommendationsEngine.generate d).length ≤ 10 ∧
    (RecommendationsEngine.generate d).Pairwise RecommendationsEngine.recLexGE := by
  refine ⟨rfl, List.length_take_le 10 _, ?_⟩
  exact List.Pairwise.sublist (List.take_sublist 10 _)
    ((List.sorted_insertionSort RecommendationsEngine.recBefore _).imp
      RecommendationsEngine.recLexGE_of_recBefore)

theorem mem_ite_singleton_iff {α : Type} {c : Prop} [Decidable c] {x a : α} :
    x ∈ (if c then [a] else []) ↔ c ∧ x = a := by
  split <;> simp_all

/-- C10: every recommendation any rule emits has priority and estimatedImpact
in the set consisting of high and medium; no rule uses "low" for either field. -/
theorem c10_no_low_priority_or_impact (d : ModulesInput) (r : Recommendation)
    (hr : r ∈ RecommendationsEngine.generate d) :
    (r.priority = Severity.high ∨ r.priority = Severity.medium) ∧
    (r.estimatedImpact = Severity.high ∨ r.estimatedImpact = Severity.medium) := by
  have hr1 : r ∈ RecommendationsEngine.prioritizeRecommendations
      (RecommendationsEngine.generateTechnicalRecommendations d.technicalSeo
       ++ RecommendationsEngine.generateContentRecommendations d.contentAudit
       ++ RecommendationsEngine.generateKeywordRecommendations d.keywords
       ++ RecommendationsEngine.generateBacklinkRecommendations d.backlinks) :=
    List.take_subset 10 _ hr
  have hr0 : r ∈ RecommendationsEngine.generateTechnicalRecommendations d.technicalSeo
       ++ RecommendationsEngine.generateContentRecommendations d.contentAudit
       ++ RecommendationsEngine.generateKeywordRecommendations d.keywords
       ++ RecommendationsEngine.generateBacklinkRecommendations d.backlinks := by
    simpa [RecommendationsEngine.prioritizeRecommendations] using hr1
  simp only [RecommendationsEngine.generateTechnicalRecommendations,
    RecommendationsEngine.generateContentRecommendations,
    RecommendationsEngine.generateKeywordRecommendations,
    RecommendationsEngine.generateBacklinkRecommendations,
    List.mem_append, mem_ite_singleton_iff] at hr0
  rcases hr0 with
    (((((⟨-, rfl⟩ | ⟨-, rfl⟩) | ⟨-, rfl⟩) | ⟨-, rfl⟩) |
      ((((⟨-, rfl⟩ | ⟨-, rfl⟩) | ⟨-, rfl⟩) | ⟨-, rfl⟩) | ⟨-, rfl⟩)) |
     ((⟨-, rfl⟩ | ⟨-, rfl⟩) | ⟨-, rfl⟩)) |
    ((⟨-, rfl⟩ | ⟨-, rfl⟩) | ⟨-, rfl⟩) <;>
    first
      | exact ⟨Or.inl rfl, Or.inl rfl⟩
      | exact ⟨Or.inl rfl, Or.inr rfl⟩
      | exact ⟨Or.inr rfl, Or.inl rfl⟩
      | exact ⟨Or.inr rfl, Or.inr rfl⟩

/-- An input on which exactly one rule (the CLS rule) fires. -/
def clsPoorFix : ModulesInput :=
  { technicalSeo :=
      { techFix with coreWebVitals := { techFix.coreWebVitals with cls := ⟨"0.4", .poor⟩ } }
    contentAudit := contentFix
    keywords := kwFix
    backlinks := blFix
    url := "https://example.com" }

/-- Witness for C10 at a concrete input and concrete returned recommendation. -/
theorem c10_no_low_priority_or_impact_witness :
    ((RecommendationsEngine.clsRec "0.4").priority = Severity.high ∨
     (RecommendationsEngine.clsRec "0.4").priority = Severity.medium) ∧
    ((RecommendationsEngine.clsRec "0.4").estimatedImpact = Severity.high ∨
     (RecommendationsEngine.clsRec "0.4").estimatedImpact = Severity.medium) :=
  c10_no_low_priority_or_impact clsPoorFix _ (by decide)

namespace RecommendationsEngine

/-- Boolean predicate: the recommendation has high priority. -/
def isHighRec (r : Recommendation) : Bool := r.priority == Severity.high

/-- Boolean predicate: the recommendation is technical with high priority. -/
def isTechHighRec (r : Recommendation) : Bool :=
  (r.category == RecCategory.technical) && (r.priority == Severity.high)

theorem isHighRec_of_isTechHighRec (r : Recommendation) (h : isTechHighRec r = true) :
    isHighRec r = true := by
  unfold isTechHighRec at h
  exact (Bool.and_eq_true_iff.mp h).2

theorem priority_high_of_recBefore {a b : Recommendation} (h : recBefore a b)
    (hb : isHighRec b = true) : isHighRec a = true := by
  rw [recBefore_iff_key] at h
  unfold recKey at h
  unfold isHighRec at *
  rw [beq_iff_eq] at hb ⊢
  rw [hb] at h
  rcases impactOrder_cases a.estimatedImpact with ia | ia | ia <;>
    rcases impactOrder_cases b.estimatedImpact with ib | ib | ib <;>
    cases hp : a.priority
  all_goals first
    | rfl
    | (exfalso; simp only [priorityOrder, hp, ia, ib] at h; omega)

theorem countP_isHigh_content_le (c : ContentAuditData) :
    (generateContentRecommendations c).countP isHighRec ≤ 2 := by
  unfold generateContentRecommendations
  split_ifs <;> simp [isHighRec, titleTagsRec, metaDescriptionsRec, h1Rec,
    staleContentRec, wordCountRec, List.countP_cons, List.countP_append]

theorem countP_isHigh_keywords_le (k : KeywordsData) :
    (generateKeywordRecommendations k).countP isHighRec ≤ 2 := by
  unfold generateKeywordRecommendations
  split_ifs <;> simp [isHighRec, top10Rec, trafficRec, indexedKeywordsRec,
    List.countP_cons, List.countP_append]

theorem countP_isHigh_backlinks_le (b : BacklinksData) :
    (generateBacklinkRecommendations b).countP isHighRec ≤ 2 := by
  unfold generateBacklinkRecommendations
  split_ifs <;> simp [isHighRec, referringDomainsRec, backlinkLossRec, domainAuthorityRec,
    List.countP_cons, List.countP_append]

theorem countP_techHigh_content_zero (c : ContentAuditData) :
    (generateContentRecommendations c).countP isTechHighRec = 0 := by
  unfold generateContentRecommendations
  split_ifs <;> rfl

theorem countP_techHigh_keywords_zero (k : KeywordsData) :
    (generateKeywordRecommendations k).countP isTechHighRec = 0 := by
  unfold generateKeywordRecommendations
  split_ifs <;> rfl

theorem countP_techHigh_backlinks_zero (b : BacklinksData) :
    (generateBacklinkRecommendations b).countP isTechHighRec = 0 := by
  unfold generateBacklinkRecommendations
  split_ifs <;> rfl

end RecommendationsEngine

/-- C9 (Scenario A): with performanceScore 45, a poor LCP score and the other
technical rule conditions not triggered, the recommendation list contains
exactly two technical high-priority recommendations — the performance one and
the LCP one — and overallHealth averages performanceScore 45 into its mean. -/
theorem c9_scenario_a (d : ModulesInput)
    (hperf : d.technicalSeo.performanceScore = 45)
    (hlcp : d.technicalSeo.coreWebVitals.lcp.score = CWVScore.poor)
    (hcls : d.technicalSeo.coreWebVitals.cls.score ≠ CWVScore.poor)
    (hseo : 80 ≤ d.technicalSeo.seoScore) :
    (RecommendationsEngine.generate d).countP RecommendationsEngine.isTechHighRec = 2 ∧
    RecommendationsEngine.perfRec 45 ∈ RecommendationsEngine.generate d ∧
    RecommendationsEngine.lcpRec d.technicalSeo.coreWebVitals.lcp.value ∈
      RecommendationsEngine.generate d ∧
    (ExecutiveSummaryGenerator.generate d).overallHealth =
      healthGrade ((45 + d.technicalSeo.seoScore +
        (d.contentAudit.metadataCompleteness.titleTags.percentage +
         d.contentAudit.metadataCompleteness.metaDescriptions.percentage) / 2) / 3) := by
  have htech : RecommendationsEngine.generateTechnicalRecommendations d.technicalSeo =
      [RecommendationsEngine.perfRec 45,
       RecommendationsEngine.lcpRec d.technicalSeo.coreWebVitals.lcp.value] := by
    unfold RecommendationsEngine.generateTechnicalRecommendations
    rw [hperf, if_pos (by norm_num : (45 : ℚ) < 60), if_pos hlcp, if_neg hcls,
      if_neg (not_lt.mpr hseo)]
    rfl
  set L0 := RecommendationsEngine.generateTechnicalRecommendations d.technicalSeo
       ++ RecommendationsEngine.generateContentRecommendations d.contentAudit
       ++ RecommendationsEngine.generateKeywordRecommendations d.keywords
       ++ RecommendationsEngine.generateBacklinkRecommendations d.backlinks with hL0
  set L := RecommendationsEngine.prioritizeRecommendations L0 with hL
  have hgen : RecommendationsEngine.generate d = L.take 10 := rfl
  have hperm : List.Perm L L0 := List.perm_insertionSort _ _
  have hpair : L.Pairwise
      (fun a b => RecommendationsEngine.isHighRec b = true →
        RecommendationsEngine.isHighRec a = true) :=
    (List.sorted_insertionSort RecommendationsEngine.recBefore L0).imp
      (fun hab => RecommendationsEngine.priority_high_of_recBefore hab)
  have htechcount : (RecommendationsEngine.generateTechnicalRecommendations
      d.technicalSeo).countP RecommendationsEngine.isHighRec = 2 := by
    rw [htech]; rfl
  have hcountHigh : L.countP RecommendationsEngine.isHighRec ≤ 10 := by
    rw [hperm.countP_eq, hL0]
    rw [List.countP_append, List.countP_append, List.countP_append, htechcount]
    have h1 := RecommendationsEngine.countP_isHigh_content_le d.contentAudit
    have h2 := RecommendationsEngine.countP_isHigh_keywords_le d.keywords
    have h3 := RecommendationsEngine.countP_isHigh_backlinks_le d.backlinks
    omega
  have htechHighL : L.countP RecommendationsEngine.isTechHighRec = 2 := by
    rw [hperm.countP_eq, hL0]
    rw [List.countP_append, List.countP_append, List.countP_append]
    rw [RecommendationsEngine.countP_techHigh_content_zero,
      RecommendationsEngine.countP_techHigh_keywords_zero,
      RecommendationsEngine.countP_techHigh_backlinks_zero, htech]
    rfl
  refine ⟨?_, ?_, ?_, ?_⟩
  · rw [hgen]
    rw [countP_take_of_le RecommendationsEngine.isHighRec
      RecommendationsEngine.isTechHighRec RecommendationsEngine.isHighRec_of_isTechHighRec
      L 10 hpair hcountHigh]
    exact htechHighL
  · rw [hgen]
    refine mem_take_of_countP_le RecommendationsEngine.isHighRec L 10 hpair hcountHigh ?_ rfl
    refine hperm.mem_iff.mpr ?_
    rw [hL0]
    refine List.mem_append_left _ (List.mem_append_left _ (List.mem_append_left _ ?_))
    rw [htech]
    exact List.mem_cons_self _ _
  · rw [hgen]
    refine mem_take_of_countP_le RecommendationsEngine.isHighRec L 10 hpair hcountHigh ?_ rfl
    refine hperm.mem_iff.mpr ?_
    rw [hL0]
    refine List.mem_append_left _ (List.mem_append_left _ (List.mem_append_left _ ?_))
    rw [htech]
    exact List.mem_cons_of_mem _ (List.mem_cons_self _ _)
  · rw [← hperf]
    rfl

/-- The Scenario A input: performanceScore 45 and a poor LCP, everything else
healthy. -/
def scenarioAFix : ModulesInput :=
  { technicalSeo :=
      { techFix with
        performanceScore := 45
        coreWebVitals := { techFix.coreWebVitals with lcp := ⟨"4.5 s", .poor⟩ } }
    contentAudit := contentFix
    keywords := kwFix
    backlinks := blFix
    url := "https://example.com" }

/-- Witness for C9 at the concrete Scenario A input. -/
theorem c9_scenario_a_witness :
    (RecommendationsEngine.generate scenarioAFix).countP
      RecommendationsEngine.isTechHighRec = 2 ∧
    RecommendationsEngine.perfRec 45 ∈ RecommendationsEngine.generate scenarioAFix ∧
    RecommendationsEngine.lcpRec scenarioAFix.technicalSeo.coreWebVitals.lcp.value ∈
      RecommendationsEngine.generate scenarioAFix ∧
    (ExecutiveSummaryGenerator.generate scenarioAFix).overallHealth =
      healthGrade ((45 + scenarioAFix.technicalSeo.seoScore +
        (scenarioAFix.contentAudit.metadataCompleteness.titleTags.percentage +
         scenarioAFix.contentAudit.metadataCompleteness.metaDescriptions.percentage) / 2) / 3) :=
  c9_scenario_a scenarioAFix rfl rfl (by decide) (by decide)

/-- The wire string of a priority/impact level. -/
def severityStr : Severity → String
  | .high => "high"
  | .medium => "medium"
  | .low => "low"

/-- The wire string of a core-web-vital score. -/
def cwvScoreStr : CWVScore → String
  | .good => "good"
  | .needsImprovement => "needs-improvement"
  | .poor => "poor"

/-- The wire string of an issue type. -/
def issueTypeStr : IssueType → String
  | .error => "error"
  | .warning => "warning"
  | .info => "info"

/-- The wire string of a health grade. -/
def healthStr : Health → String
  | .excellent => "excellent"
  | .good => "good"
  | .fair => "fair"
  | .poor => "poor"

/-- The wire string of a traffic status. -/
def trafficStatusStr : TrafficStatus → String
  | .increasing => "increasing"
  | .stable => "stable"
  | .decreasing => "decreasing"

/-- The wire string of a timeframe. -/
def timeframeStr : Timeframe → String
  | .weeks1to2 => "1-2 weeks"
  | .months1to2 => "1-2 months"
  | .months3plus => "3+ months"

/-- Insert a comma after every three digits of a reversed digit list. -/
def groupRev (l : List Char) : List Char :=
  if h : l.length ≤ 3 then l
  else l.take 3 ++ ',' :: groupRev (l.drop 3)
termination_by l.length
decreasing_by simp only [List.length_drop]; omega

/-- Models the platform builtin `Number.prototype.toLocaleString` under the
default en-US locale as used by the template: integer values are rendered
with comma thousands separators; non-integer values are abstracted as their
plain decimal string (the template only calls it on counts). -/
def toLocaleStringQ (q : ℚ) : String :=
  if q.den = 1 then
    (if q.num < 0 then "-" else "") ++
      String.mk (groupRev (toString q.num.natAbs).toList.reverse).reverse
  else toString q

/-- Models the platform builtin `new Date(s).toLocaleDateString()`: a total
locale-dependent formatting step, abstracted here as the raw timestamp
string.  It cannot fail, which is all the renderer contract needs. -/
def jsToLocaleDateString (analyzedAt : String) : String := analyzedAt

namespace HTMLReportTemplate

/-- `getScoreClass` (lines 643-648). -/
def getScoreClass (score : ℚ) : String :=
  if 80 ≤ score then "score-excellent"
  else if 60 ≤ score then "score-good"
  else if 40 ≤ score then "score-fair"
  else "score-poor"

/-- `mapCWVScore` (lines 650-652). -/
def mapCWVScore (score : CWVScore) : String :=
  if score = .good then "good"
  else if score = .needsImprovement then "fair"
  else "poor"

/-- `truncateUrl` (lines 654-656). -/
def truncateUrl (url : String) : String :=
  if 50 < url.length then url.take 50 ++ "..." else url

/-- `getCSS` (lines 36-235): the static stylesheet literal. -/
def getCSS : String :=
  "
        * \x7b
            margin: 0;
            padding: 0;
            box-sizing: border-box;
        \x7d
        
        body \x7b
            font-family: 'Segoe UI', Tahoma, Geneva, Verdana, sans-serif;
            line-height: 1.6;
            color: #333;
            background-color: #f8fafc;
        \x7d
        
        .report-container \x7b
            max-width: 1200px;
            margin: 0 auto;
            background: white;
            box-shadow: 0 0 20px rgba(0,0,0,0.1);
        \x7d
        
        .header \x7b
            background: linear-gradient(135deg, #667eea 0%, #764ba2 100%);
            color: white;
            padding: 40px;
            text-align: center;
        \x7d
        
        .header h1 \x7b
            font-size: 2.5em;
            margin-bottom: 10px;
        \x7d
        
        .header .url \x7b
            font-size: 1.2em;
            opacity: 0.9;
            margin-bottom: 5px;
        \x7d
        
        .header .date \x7b
            opacity: 0.8;
        \x7d
        
        .section \x7b
            padding: 40px;
            border-bottom: 1px solid #eee;
        \x7d
        
        .section:last-child \x7b
            border-bottom: none;
        \x7d
        
        .section-title \x7b
            font-size: 2em;
            margin-bottom: 20px;
            color: #2d3748;
            border-left: 4px solid #667eea;
            padding-left: 15px;
        \x7d
        
        .executive-summary \x7b
            background: #f7fafc;
            border-radius: 8px;
            padding: 30px;
            margin-bottom: 20px;
        \x7d
        
        .health-badge \x7b
            display: inline-block;
            padding: 8px 16px;
            border-radius: 20px;
            font-weight: bold;
            text-transform: uppercase;
            font-size: 0.9em;
        \x7d
        
        .health-excellent \x7b background: #c6f6d5; color: #22543d; \x7d
        .health-good \x7b background: #bee3f8; color: #2c5282; \x7d
        .health-fair \x7b background: #fbd38d; color: #744210; \x7d
        .health-poor \x7b background: #feb2b2; color: #742a2a; \x7d
        
        .metrics-grid \x7b
            display: grid;
            grid-template-columns: repeat(auto-fit, minmax(250px, 1fr));
            gap: 20px;
            margin: 20px 0;
        \x7d
        
        .metric-card \x7b
            background: white;
            border-radius: 8px;
            padding: 20px;
            box-shadow: 0 2px 4px rgba(0,0,0,0.1);
            text-align: center;
        \x7d
        
        .metric-value \x7b
            font-size: 2.5em;
            font-weight: bold;
            color: #667eea;
        \x7d
        
        .metric-label \x7b
            color: #718096;
            margin-top: 5px;
        \x7d
        
        .score-bar \x7b
            background: #e2e8f0;
            border-radius: 10px;
            height: 20px;
            overflow: hidden;
            margin: 10px 0;
        \x7d
        
        .score-fill \x7b
            height: 100%;
            border-radius: 10px;
            transition: width 0.3s ease;
        \x7d
        
        .score-excellent \x7b background: #48bb78; \x7d
        .score-good \x7b background: #4299e1; \x7d
        .score-fair \x7b background: #ed8936; \x7d
        .score-poor \x7b background: #f56565; \x7d
        
        .issues-list \x7b
            list-style: none;
            padding: 0;
        \x7d
        
        .issues-list li \x7b
            padding: 10px;
            margin: 5px 0;
            border-left: 3px solid #cbd5e0;
            background: #f7fafc;
            border-radius: 0 4px 4px 0;
        \x7d
        
        .issue-error \x7b border-left-color: #f56565; \x7d
        .issue-warning \x7b border-left-color: #ed8936; \x7d
        .issue-info \x7b border-left-color: #4299e1; \x7d
        
        .recommendations-list \x7b
            display: grid;
            grid-template-columns: repeat(auto-fit, minmax(300px, 1fr));
            gap: 20px;
        \x7d
        
        .recommendation-card \x7b
            background: white;
            border-radius: 8px;
            padding: 20px;
            box-shadow: 0 2px 4px rgba(0,0,0,0.1);
            border-left: 4px solid #cbd5e0;
        \x7d
        
        .priority-high \x7b border-left-color: #f56565; \x7d
        .priority-medium \x7b border-left-color: #ed8936; \x7d
        .priority-low \x7b border-left-color: #4299e1; \x7d
        
        .chart-container \x7b
            position: relative;
            height: 300px;
            margin: 20px 0;
        \x7d
        
        table \x7b
            width: 100%;
            border-collapse: collapse;
            margin: 20px 0;
        \x7d
        
        th, td \x7b
            padding: 12px;
            text-align: left;
            border-bottom: 1px solid #e2e8f0;
        \x7d
        
        th \x7b
            background: #f7fafc;
            font-weight: 600;
            color: #2d3748;
        \x7d
        
        .footer \x7b
            background: #2d3748;
            color: white;
            padding: 20px;
            text-align: center;
        \x7d
        
        @media print \x7b
            body \x7b background: white; \x7d
            .report-container \x7b box-shadow: none; \x7d
            .section \x7b page-break-inside: avoid; \x7d
        \x7d
    "

/-- `getMetadataData` (lines 658-660): a hard-coded placeholder. -/
def getMetadataData : String := "75, 60, 40"

/-- `getKeywordData` (lines 662-664): a hard-coded placeholder. -/
def getKeywordData : String := "15, 45, 120"

/-- `getJavaScript` (lines 595-641): the chart-setup script literal. -/
def getJavaScript : String :=
  "
        // Metadata Chart
        const metadataCtx = document.getElementById('metadataChart');
        if (metadataCtx) \x7b
            new Chart(metadataCtx, \x7b
                type: 'doughnut',
                data: \x7b
                    labels: ['Title Tags', 'Meta Descriptions', 'H1 Tags'],
                    datasets: [\x7b
                        data: [" ++ getMetadataData ++ "],
                        backgroundColor: ['#667eea', '#764ba2', '#f093fb']
                    \x7d]
                \x7d,
                options: \x7b
                    responsive: true,
                    maintainAspectRatio: false
                \x7d
            \x7d);
        \x7d
        
        // Keyword Distribution Chart
        const keywordCtx = document.getElementById('keywordChart');
        if (keywordCtx) \x7b
            new Chart(keywordCtx, \x7b
                type: 'bar',
                data: \x7b
                    labels: ['Top 3', 'Top 10', 'Top 50'],
                    datasets: [\x7b
                        label: 'Keywords',
                        data: [" ++ getKeywordData ++ "],
                        backgroundColor: ['#48bb78', '#4299e1', '#ed8936']
                    \x7d]
                \x7d,
                options: \x7b
                    responsive: true,
                    maintainAspectRatio: false,
                    scales: \x7b
                        y: \x7b
                            beginAtZero: true
                        \x7d
                    \x7d
                \x7d
            \x7d);
        \x7d
    "

/-- `generateHeader` (lines 237-245). -/
def generateHeader (data : SEOReportData) : String :=
  "
        <div class=\"header\">
            <h1>SEO Analysis Report</h1>
            <div class=\"url\">"
  ++ (data.url)
  ++ "</div>
            <div class=\"date\">Generated on "
  ++ (jsToLocaleDateString data.analyzedAt)
  ++ "</div>
        </div>
    "

/-- `generateExecutiveSummary` (lines 247-292): absent executiveSummary
renders as the empty string (line 248). -/
def generateExecutiveSummary (data : SEOReportData) : String :=
  match data.executiveSummary with
  | none => ""
  | some summary =>
  "
        <div class=\"section\">
            <h2 class=\"section-title\">" ++ "Executive Summary" ++ "</h2>
            <div class=\"executive-summary\">
                <div style=\"display: flex; justify-content: space-between; align-items: center; margin-bottom: 20px;\">
                    <h3>Overall Health: <span class=\"health-badge health-"
  ++ (healthStr summary.overallHealth)
  ++ "\">"
  ++ ((healthStr summary.overallHealth).toUpper)
  ++ "</span></h3>
                    <div>Traffic Status: <strong>"
  ++ ((trafficStatusStr summary.trafficStatus).toUpper)
  ++ "</strong></div>
                </div>
                
                <div class=\"metrics-grid\">
                    <div class=\"metric-card\">
                        <div class=\"metric-value\">"
  ++ (toString summary.currentRanking.keywordsInTop10)
  ++ "</div>
                        <div class=\"metric-label\">Keywords in Top 10</div>
                    </div>
                    <div class=\"metric-card\">
                        <div class=\"metric-value\">"
  ++ (toLocaleStringQ summary.currentRanking.estimatedTraffic)
  ++ "</div>
                        <div class=\"metric-label\">Estimated Traffic</div>
                    </div>
                    <div class=\"metric-card\">
                        <div class=\"metric-value\">"
  ++ (toString summary.currentRanking.domainAuthority)
  ++ "</div>
                        <div class=\"metric-label\">Domain Authority</div>
                    </div>
                </div>
                
                <div style=\"display: grid; grid-template-columns: 1fr 1fr; gap: 30px; margin-top: 30px;\">
                    <div>
                        <h4>üéØ Quick Wins</h4>
                        <ul>
                            "
  ++ (String.join (summary.quickWins.map (fun win => "<li>" ++ win ++ "</li>")))
  ++ "
                        </ul>
                    </div>
                    <div>
                        <h4>üö® Urgent Issues</h4>
                        <ul>
                            "
  ++ (String.join (summary.urgentIssues.map (fun issue => "<li>" ++ issue ++ "</li>")))
  ++ "
                        </ul>
                    </div>
                </div>
            </div>
        </div>
    "

/-- `generateTechnicalSEO` (lines 294-359). -/
def generateTechnicalSEO (data : SEOReportData) : String :=
  let tech := data.technicalSeo
  "
        <div class=\"section\">
            <h2 class=\"section-title\">" ++ "Technical SEO" ++ "</h2>
            
            <div class=\"metrics-grid\">
                <div class=\"metric-card\">
                    <div class=\"metric-value\">"
  ++ (toString tech.performanceScore)
  ++ "</div>
                    <div class=\"metric-label\">Performance Score</div>
                    <div class=\"score-bar\">
                        <div class=\"score-fill "
  ++ (getScoreClass tech.performanceScore)
  ++ "\" 
                             style=\"width: "
  ++ (toString tech.performanceScore)
  ++ "%\"></div>
                    </div>
                </div>
                <div class=\"metric-card\">
                    <div class=\"metric-value\">"
  ++ (toString tech.seoScore)
  ++ "</div>
                    <div class=\"metric-label\">SEO Score</div>
                    <div class=\"score-bar\">
                        <div class=\"score-fill "
  ++ (getScoreClass tech.seoScore)
  ++ "\" 
                             style=\"width: "
  ++ (toString tech.seoScore)
  ++ "%\"></div>
                    </div>
                </div>
                <div class=\"metric-card\">
                    <div class=\"metric-value\">"
  ++ (toString tech.accessibilityScore)
  ++ "</div>
                    <div class=\"metric-label\">Accessibility Score</div>
                    <div class=\"score-bar\">
                        <div class=\"score-fill "
  ++ (getScoreClass tech.accessibilityScore)
  ++ "\" 
                             style=\"width: "
  ++ (toString tech.accessibilityScore)
  ++ "%\"></div>
                    </div>
                </div>
            </div>
            
            <h3>Core Web Vitals</h3>
            <div class=\"metrics-grid\">
                <div class=\"metric-card\">
                    <div class=\"metric-value\">"
  ++ (tech.coreWebVitals.lcp.value)
  ++ "</div>
                    <div class=\"metric-label\">Largest Contentful Paint (LCP)</div>
                    <span class=\"health-badge health-"
  ++ (mapCWVScore tech.coreWebVitals.lcp.score)
  ++ "\">"
  ++ (cwvScoreStr tech.coreWebVitals.lcp.score)
  ++ "</span>
                </div>
                <div class=\"metric-card\">
                    <div class=\"metric-value\">"
  ++ (tech.coreWebVitals.cls.value)
  ++ "</div>
                    <div class=\"metric-label\">Cumulative Layout Shift (CLS)</div>
                    <span class=\"health-badge health-"
  ++ (mapCWVScore tech.coreWebVitals.cls.score)
  ++ "\">"
  ++ (cwvScoreStr tech.coreWebVitals.cls.score)
  ++ "</span>
                </div>
                <div class=\"metric-card\">
                    <div class=\"metric-value\">"
  ++ (tech.coreWebVitals.fid.value)
  ++ "</div>
                    <div class=\"metric-label\">First Input Delay (FID)</div>
                    <span class=\"health-badge health-"
  ++ (mapCWVScore tech.coreWebVitals.fid.score)
  ++ "\">"
  ++ (cwvScoreStr tech.coreWebVitals.fid.score)
  ++ "</span>
                </div>
            </div>
            
            "
  ++ (if 0 < tech.issues.length then "\n                <h3>Technical Issues</h3>\n                <ul class=\"issues-list\">\n                    " ++ String.join (tech.issues.map (fun issue => "\n                        <li class=\"issue-" ++ issueTypeStr issue.type ++ "\">\n                            <strong>" ++ issue.title ++ "</strong>\n                            <p>" ++ issue.description ++ " (Impact: " ++ severityStr issue.impact ++ ")</p>\n                        </li>\n                    ")) ++ "\n                </ul>\n            " else "")
  ++ "
        </div>
    "

/-- `generateContentAudit` (lines 361-416). -/
def generateContentAudit (data : SEOReportData) : String :=
  let content := data.contentAudit
  "
        <div class=\"section\">
            <h2 class=\"section-title\">" ++ "Content Audit" ++ "</h2>
            
            <div class=\"metrics-grid\">
                <div class=\"metric-card\">
                    <div class=\"metric-value\">"
  ++ (toString content.totalPages)
  ++ "</div>
                    <div class=\"metric-label\">Total Pages</div>
                </div>
                <div class=\"metric-card\">
                    <div class=\"metric-value\">"
  ++ (toString content.contentMetrics.averageWordCount)
  ++ "</div>
                    <div class=\"metric-label\">Average Word Count</div>
                </div>
                <div class=\"metric-card\">
                    <div class=\"metric-value\">"
  ++ (toString content.metadataCompleteness.titleTags.percentage)
  ++ "%</div>
                    <div class=\"metric-label\">Pages with Title Tags</div>
                </div>
                <div class=\"metric-card\">
                    <div class=\"metric-value\">"
  ++ (toString content.metadataCompleteness.metaDescriptions.percentage)
  ++ "%</div>
                    <div class=\"metric-label\">Pages with Meta Descriptions</div>
                </div>
            </div>
            
            <h3>Metadata Completeness</h3>
            <div class=\"chart-container\">
                <canvas id=\"metadataChart\"></canvas>
            </div>
            
            <h3>Top Performing Pages</h3>
            <table>
                <thead>
                    <tr>
                        <th>URL</th>
                        <th>Title</th>
                        <th>Word Count</th>
                        <th>Meta Description</th>
                        <th>H1</th>
                    </tr>
                </thead>
                <tbody>
                    "
  ++ (String.join ((content.topPages.take 10).map (fun page => "\n                        <tr>\n                            <td><a href=\"" ++ page.url ++ "\" target=\"_blank\">" ++ truncateUrl page.url ++ "</a></td>\n                            <td>" ++ (if page.title = "" then "Missing" else page.title) ++ "</td>\n                            <td>" ++ toString page.wordCount ++ "</td>\n                            <td>" ++ (if page.hasMetaDescription then "‚úÖ" else "‚ùå") ++ "</td>\n                            <td>" ++ (if page.hasH1 then "‚úÖ" else "‚ùå") ++ "</td>\n                        </tr>\n                    ")))
  ++ "
                </tbody>
            </table>
        </div>
    "

/-- `generateKeywords` (lines 418-488). -/
def generateKeywords (data : SEOReportData) : String :=
  let keywords := data.keywords
  "
        <div class=\"section\">
            <h2 class=\"section-title\">" ++ "Keyword Analysis" ++ "</h2>
            
            <div class=\"metrics-grid\">
                <div class=\"metric-card\">
                    <div class=\"metric-value\">"
  ++ (toString keywords.totalKeywords)
  ++ "</div>
                    <div class=\"metric-label\">Total Keywords</div>
                </div>
                <div class=\"metric-card\">
                    <div class=\"metric-value\">"
  ++ (toString keywords.distribution.top10.count)
  ++ "</div>
                    <div class=\"metric-label\">Top 10 Rankings</div>
                </div>
                <div class=\"metric-card\">
                    <div class=\"metric-value\">"
  ++ (toLocaleStringQ keywords.organicTraffic.estimated)
  ++ "</div>
                    <div class=\"metric-label\">Estimated Traffic</div>
                </div>
                <div class=\"metric-card\">
                    <div class=\"metric-value\">"
  ++ (if 0 < keywords.organicTraffic.change then "+" else "")
  ++ ""
  ++ (toString keywords.organicTraffic.change)
  ++ "%</div>
                    <div class=\"metric-label\">Traffic Change</div>
                </div>
            </div>
            
            <h3>Keyword Distribution</h3>
            <div class=\"chart-container\">
                <canvas id=\"keywordChart\"></canvas>
            </div>
            
            <div style=\"display: grid; grid-template-columns: 1fr 1fr; gap: 30px;\">
                <div>
                    <h3>Best Performing Keywords</h3>
                    <table>
                        <thead>
                            <tr><th>Keyword</th><th>Position</th><th>Volume</th><th>Change</th></tr>
                        </thead>
                        <tbody>
                            "
  ++ (String.join ((keywords.performingKeywords.best.take 5).map (fun kw => "\n                                <tr>\n                                    <td>" ++ kw.keyword ++ "</td>\n                                    <td>" ++ toString kw.position ++ "</td>\n                                    <td>" ++ toLocaleStringQ kw.volume ++ "</td>\n                                    <td style=\"color: " ++ (if 0 < kw.change then "green" else "red") ++ "\">" ++ (if 0 < kw.change then "+" else "") ++ toString kw.change ++ "</td>\n                                </tr>\n                            ")))
  ++ "
                        </tbody>
                    </table>
                </div>
                <div>
                    <h3>Improvement Opportunities</h3>
                    <table>
                        <thead>
                            <tr><th>Keyword</th><th>Position</th><th>Volume</th><th>Potential</th></tr>
                        </thead>
                        <tbody>
                            "
  ++ (String.join ((keywords.performingKeywords.worst.take 5).map (fun kw => "\n                                <tr>\n                                    <td>" ++ kw.keyword ++ "</td>\n                                    <td>" ++ toString kw.position ++ "</td>\n                                    <td>" ++ toLocaleStringQ kw.volume ++ "</td>\n                                    <td>High</td>\n                                </tr>\n                            ")))
  ++ "
                        </tbody>
                    </table>
                </div>
            </div>
        </div>
    "

/-- `generateBacklinks` (lines 490-554). -/
def generateBacklinks (data : SEOReportData) : String :=
  let backlinks := data.backlinks
  "
        <div class=\"section\">
            <h2 class=\"section-title\">" ++ "Backlink Profile" ++ "</h2>
            
            <div class=\"metrics-grid\">
                <div class=\"metric-card\">
                    <div class=\"metric-value\">"
  ++ (toLocaleStringQ backlinks.totalBacklinks)
  ++ "</div>
                    <div class=\"metric-label\">Total Backlinks</div>
                </div>
                <div class=\"metric-card\">
                    <div class=\"metric-value\">"
  ++ (toString backlinks.referringDomains)
  ++ "</div>
                    <div class=\"metric-label\">Referring Domains</div>
                </div>
                <div class=\"metric-card\">
                    <div class=\"metric-value\">"
  ++ (toString backlinks.domainRating)
  ++ "</div>
                    <div class=\"metric-label\">Domain Rating</div>
                </div>
                <div class=\"metric-card\">
                    <div class=\"metric-value\">"
  ++ (if 0 < backlinks.referringDomainsGrowth.change then "+" else "")
  ++ ""
  ++ (toString backlinks.referringDomainsGrowth.change)
  ++ "</div>
                    <div class=\"metric-label\">Monthly Growth</div>
                </div>
            </div>
            
            <h3>Top Referring Domains</h3>
            <table>
                <thead>
                    <tr>
                        <th>Domain</th>
                        <th>Backlinks</th>
                        <th>Domain Rating</th>
                        <th>Traffic</th>
                    </tr>
                </thead>
                <tbody>
                    "
  ++ (String.join ((backlinks.topReferringDomains.take 10).map (fun domain => "\n                        <tr>\n                            <td>" ++ domain.domain ++ "</td>\n                            <td>" ++ toString domain.backlinks ++ "</td>\n                            <td>" ++ toString domain.domainRating ++ "</td>\n                            <td>" ++ toLocaleStringQ domain.traffic ++ "</td>\n                        </tr>\n                    ")))
  ++ "
                </tbody>
            </table>
            
            <h3>Anchor Text Distribution</h3>
            <table>
                <thead>
                    <tr><th>Anchor Text</th><th>Count</th><th>Percentage</th></tr>
                </thead>
                <tbody>
                    "
  ++ (String.join ((backlinks.anchorTexts.take 10).map (fun anchor => "\n                        <tr>\n                            <td>" ++ anchor.text ++ "</td>\n                            <td>" ++ toString anchor.count ++ "</td>\n                            <td>" ++ toString anchor.percentage ++ "%</td>\n                        </tr>\n                    ")))
  ++ "
                </tbody>
            </table>
        </div>
    "

/-- `generateRecommendations` (lines 556-584): absent recommendations
renders as the empty string (line 557); an empty array is truthy in
JavaScript, so a present-but-empty list still renders the section. -/
def generateRecommendations (data : SEOReportData) : String :=
  match data.recommendations with
  | none => ""
  | some recs =>
  "
        <div class=\"section\">
            <h2 class=\"section-title\">" ++ "Recommendations & Roadmap" ++ "</h2>
            
            <div class=\"recommendations-list\">
                "
  ++ (String.join (recs.map (fun r => "\n                    <div class=\"recommendation-card priority-" ++ severityStr r.priority ++ "\">\n                        <h4>" ++ r.title ++ "</h4>\n                        <p>" ++ r.description ++ "</p>\n                        <div style=\"margin-top: 15px;\">\n                            <span class=\"health-badge health-" ++ (if r.priority = Severity.high then "poor" else if r.priority = Severity.medium then "fair" else "good") ++ "\">\n                                " ++ (severityStr r.priority).toUpper ++ " PRIORITY\n                            </span>\n                            <span style=\"margin-left: 10px; color: #718096;\">\n                                " ++ timeframeStr r.timeframe ++ " ‚Ä¢ " ++ (severityStr r.estimatedImpact).toUpper ++ " Impact\n                            </span>\n                        </div>\n                        <div style=\"margin-top: 10px;\">\n                            <strong>Resources needed:</strong> " ++ String.intercalate ", " r.resources ++ "\n                        </div>\n                    </div>\n                ")))
  ++ "
            </div>
        </div>
    "

/-- `generateFooter` (lines 586-593). -/
def generateFooter (data : SEOReportData) : String :=
  "
        <div class=\"footer\">
            <p>SEO Report generated on "
  ++ (jsToLocaleDateString data.analyzedAt)
  ++ "</p>
            <p>Report covers: Technical SEO, Content Audit, Keywords, and Backlink Analysis</p>
        </div>
    "

/-- `HTMLReportTemplate.generate` (lines 4-34): the full document. -/
def generate (data : SEOReportData) : String :=
  "\n" ++ "<!DOCTYPE html>" ++ "
<html lang=\"en\">
<head>
    <meta charset=\"UTF-8\">
    <meta name=\"viewport\" content=\"width=device-width, initial-scale=1.0\">
    <title>SEO Report - "
  ++ (data.domain)
  ++ "</title>
    <style>
        "
  ++ (getCSS)
  ++ "
    </style>
    <script src=\"https://cdn.jsdelivr.net/npm/chart.js\"></script>
</head>
<body>
    <div class=\"report-container\">
        "
  ++ (generateHeader data)
  ++ "
        "
  ++ (generateExecutiveSummary data)
  ++ "
        "
  ++ (generateTechnicalSEO data)
  ++ "
        "
  ++ (generateContentAudit data)
  ++ "
        "
  ++ (generateKeywords data)
  ++ "
        "
  ++ (generateBacklinks data)
  ++ "
        "
  ++ (generateRecommendations data)
  ++ "
        "
  ++ (generateFooter data)
  ++ "
    </div>
    
    <script>
        "
  ++ (getJavaScript)
  ++ "
    </script>
</body>
</html>"

end HTMLReportTemplate

/-- The pattern `pat` occurs contiguously inside the string `s`. -/
def strOccurs (pat s : String) : Prop := ∃ a b : String, s = a ++ pat ++ b

theorem strOccurs_refl (pat : String) : strOccurs pat pat :=
  ⟨"", "", by simp⟩

theorem strOccurs_append_left {pat s t : String} (h : strOccurs pat t) :
    strOccurs pat (s ++ t) := by
  obtain ⟨a, b, rfl⟩ := h
  exact ⟨s ++ a, b, by simp [String.append_assoc]⟩

theorem strOccurs_append_right {pat s t : String} (h : strOccurs pat s) :
    strOccurs pat (s ++ t) := by
  obtain ⟨a, b, rfl⟩ := h
  exact ⟨a, b ++ t, by simp [String.append_assoc]⟩

namespace HTMLReportTemplate

theorem headerOccurs_exec (data : SEOReportData) (es : ExecutiveSummary)
    (h : data.executiveSummary = some es) :
    strOccurs "Executive Summary" (generateExecutiveSummary data) := by
  unfold generateExecutiveSummary
  rw [h]
  repeat first
    | exact strOccurs_append_left (strOccurs_refl _)
    | apply strOccurs_append_right

theorem headerOccurs_tech (data : SEOReportData) :
    strOccurs "Technical SEO" (generateTechnicalSEO data) := by
  unfold generateTechnicalSEO
  repeat first
    | exact strOccurs_append_left (strOccurs_refl _)
    | apply strOccurs_append_right

theorem headerOccurs_content (data : SEOReportData) :
    strOccurs "Content Audit" (generateContentAudit data) := by
  unfold generateContentAudit
  repeat first
    | exact strOccurs_append_left (strOccurs_refl _)
    | apply strOccurs_append_right

theorem headerOccurs_keywords (data : SEOReportData) :
    strOccurs "Keyword Analysis" (generateKeywords data) := by
  unfold generateKeywords
  repeat first
    | exact strOccurs_append_left (strOccurs_refl _)
    | apply strOccurs_append_right

theorem headerOccurs_backlinks (data : SEOReportData) :
    strOccurs "Backlink Profile" (generateBacklinks data) := by
  unfold generateBacklinks
  repeat first
    | exact strOccurs_append_left (strOccurs_refl _)
    | apply strOccurs_append_right

theorem headerOccurs_recommendations (data : SEOReportData) (recs : List Recommendation)
    (h : data.recommendations = some recs) :
    strOccurs "Recommendations & Roadmap" (generateRecommendations data) := by
  unfold generateRecommendations
  rw [h]
  repeat first
    | exact strOccurs_append_left (strOccurs_refl _)
    | apply strOccurs_append_right

end HTMLReportTemplate

/-- C6: the renderer is a total function producing a document for every
report (it always emits the DOCTYPE preamble), and when the optional
executiveSummary or recommendations field is absent the corresponding
section renders as the empty string instead of erroring. -/
theorem c6_render_never_fails_and_omits_absent_sections (data : SEOReportData) :
    strOccurs "<!DOCTYPE html>" (HTMLReportTemplate.generate data) ∧
    (data.executiveSummary = none → HTMLReportTemplate.generateExecutiveSummary data = "") ∧
    (data.recommendations = none → HTMLReportTemplate.generateRecommendations data = "") := by
  refine ⟨?_, ?_, ?_⟩
  · unfold HTMLReportTemplate.generate
    iterate 23 apply strOccurs_append_right
    exact strOccurs_append_left (strOccurs_refl _)
  · intro h
    unfold HTMLReportTemplate.generateExecutiveSummary
    rw [h]
  · intro h
    unfold HTMLReportTemplate.generateRecommendations
    rw [h]

/-- A concrete well-formed report with both optional sections absent. -/
def reportNoneFix : SEOReportData :=
  { url := "https://example.com"
    domain := "example.com"
    analyzedAt := "2026-01-01T00:00:00.000Z"
    technicalSeo := techFix
    contentAudit := contentFix
    keywords := kwFix
    backlinks := blFix
    executiveSummary := none
    recommendations := none }

/-- Witness for C6 at a concrete report with both optional sections absent. -/
theorem c6_render_never_fails_and_omits_absent_sections_witness :
    HTMLReportTemplate.generateExecutiveSummary reportNoneFix = "" ∧
    HTMLReportTemplate.generateRecommendations reportNoneFix = "" :=
  ⟨(c6_render_never_fails_and_omits_absent_sections reportNoneFix).2.1 rfl,
   (c6_render_never_fails_and_omits_absent_sections reportNoneFix).2.2 rfl⟩

/-- A concrete report with zero issues everywhere and a present-but-empty
recommendations list. -/
def reportEmptyRecsFix : SEOReportData :=
  { url := "https://example.com"
    domain := "example.com"
    analyzedAt := "2026-01-01T00:00:00.000Z"
    technicalSeo := techFix
    contentAudit := contentFix
    keywords := kwFix
    backlinks := blFix
    executiveSummary := some (ExecutiveSummaryGenerator.generate
      ⟨techFix, contentFix, kwFix, blFix, "https://example.com"⟩)
    recommendations := some [] }

/-- Counterexample to C7 as stated: the claim says a report with zero issues
and an empty (zero-length) recommendations list renders without the
recommendations header, but an empty array is truthy in JavaScript, so the
renderer emits the "Recommendations & Roadmap" section header anyway. -/
theorem c7_counterexample_recommendations_header_present :
    strOccurs "Recommendations & Roadmap" (HTMLReportTemplate.generate reportEmptyRecsFix) := by
  unfold HTMLReportTemplate.generate
  iterate 5 apply strOccurs_append_right
  exact strOccurs_append_left
    (HTMLReportTemplate.headerOccurs_recommendations reportEmptyRecsFix [] rfl)

/-- C7 (amended): rendering a report with zero issues and an empty
recommendations list retains all six section headers, the recommendations
header included — only an absent recommendations field omits that section. -/
theorem c7_zero_issue_report_retains_all_six_headers (data : SEOReportData)
    (es : ExecutiveSummary)
    (hes : data.executiveSummary = some es)
    (hrecs : data.recommendations = some [])
    (hti : data.technicalSeo.issues = [])
    (hci : data.contentAudit.issues = []) :
    strOccurs "Executive Summary" (HTMLReportTemplate.generate data) ∧
    strOccurs "Technical SEO" (HTMLReportTemplate.generate data) ∧
    strOccurs "Content Audit" (HTMLReportTemplate.generate data) ∧
    strOccurs "Keyword Analysis" (HTMLReportTemplate.generate data) ∧
    strOccurs "Backlink Profile" (HTMLReportTemplate.generate data) ∧
    strOccurs "Recommendations & Roadmap" (HTMLReportTemplate.generate data) := by
  refine ⟨?_, ?_, ?_, ?_, ?_, ?_⟩
  · unfold HTMLReportTemplate.generate
    iterate 15 apply strOccurs_append_right
    exact strOccurs_append_left (HTMLReportTemplate.headerOccurs_exec data es hes)
  · unfold HTMLReportTemplate.generate
    iterate 13 apply strOccurs_append_right
    exact strOccurs_append_left (HTMLReportTemplate.headerOccurs_tech data)
  · unfold HTMLReportTemplate.generate
    iterate 11 apply strOccurs_append_right
    exact strOccurs_append_left (HTMLReportTemplate.headerOccurs_content data)
  · unfold HTMLReportTemplate.generate
    iterate 9 apply strOccurs_append_right
    exact strOccurs_append_left (HTMLReportTemplate.headerOccurs_keywords data)
  · unfold HTMLReportTemplate.generate
    iterate 7 apply strOccurs_append_right
    exact strOccurs_append_left (HTMLReportTemplate.headerOccurs_backlinks data)
  · unfold HTMLReportTemplate.generate
    iterate 5 apply strOccurs_append_right
    exact strOccurs_append_left
      (HTMLReportTemplate.headerOccurs_recommendations data [] hrecs)

/-- Witness for the amended C7 at the concrete zero-issue report. -/
theorem c7_zero_issue_report_retains_all_six_headers_witness :
    strOccurs "Executive Summary" (HTMLReportTemplate.generate reportEmptyRecsFix) ∧
    strOccurs "Technical SEO" (HTMLReportTemplate.generate reportEmptyRecsFix) ∧
    strOccurs "Content Audit" (HTMLReportTemplate.generate reportEmptyRecsFix) ∧
    strOccurs "Keyword Analysis" (HTMLReportTemplate.generate reportEmptyRecsFix) ∧
    strOccurs "Backlink Profile" (HTMLReportTemplate.generate reportEmptyRecsFix) ∧
    strOccurs "Recommendations & Roadmap" (HTMLReportTemplate.generate reportEmptyRecsFix) :=
  c7_zero_issue_report_retains_all_six_headers reportEmptyRecsFix _ rfl rfl rfl rfl

/-- Scheme recognizer for the URL host model: strips a leading "https://" or
"http://" (the forms the application constructs and accepts). -/
def urlDropScheme : List Char → Option (List Char)
  | 'h' :: 't' :: 't' :: 'p' :: 's' :: ':' :: '/' :: '/' :: rest => some rest
  | 'h' :: 't' :: 't' :: 'p' :: ':' :: '/' :: '/' :: rest => some rest
  | _ => none

/-- Models the platform builtin `new URL(url).hostname` (the WHATWG URL
parser) for http/https URLs with a non-bracketed host: the scheme and "://"
are removed, the authority ends at the first "/", "?" or "#", userinfo up to
the last "@" is dropped, the host ends at the first ":" (the port), and the
host-to-ASCII step lowercases ASCII letters.  Parsing fails (the constructor
throws) when the scheme is missing or the host is empty. -/
def urlHostname (url : String) : Option String :=
  match urlDropScheme url.toList with
  | none => none
  | some rest =>
    let authority := rest.takeWhile (fun c => !(c == '/' || c == '?' || c == '#'))
    let hostPort := (authority.reverse.takeWhile (fun c => c != '@')).reverse
    let host := hostPort.takeWhile (fun c => c != ':')
    if host.isEmpty then none
    else some (String.mk (host.map Char.toLower))

/-- The `modules` argument of `generateCompleteReport`. -/
structure Modules where
  technicalSeo : TechnicalSEOData
  contentAudit : ContentAuditData
  keywords : KeywordsData
  backlinks : BacklinksData
deriving DecidableEq, Repr

/-- The assembler result (html format requested, so no pdf member). -/
structure ReportResult where
  data : SEOReportData
  html : String
deriving DecidableEq, Repr

namespace SEOReportGenerator

/-- `SEOReportGenerator.generateCompleteReport`
(`src/lib/seo-report-generator.ts` lines 18-83) with the html format option:
derive the domain from the url (line 33, throwing on an unparsable url),
synthesize the executive summary and recommendations, stamp `analyzedAt`
(the current time, injected here as the `now` parameter), and render the
HTML.  A throw surfaces as `Except.error`. -/
def generateCompleteReport (url : String) (modules : Modules) (now : String) :
    Except String ReportResult :=
  match urlHostname url with
  | none => Except.error "TypeError: Invalid URL"
  | some domain =>
    let executiveSummary := ExecutiveSummaryGenerator.generate
      ⟨modules.technicalSeo, modules.contentAudit, modules.keywords, modules.backlinks, url⟩
    let recommendations := RecommendationsEngine.generate
      ⟨modules.technicalSeo, modules.contentAudit, modules.keywords, modules.backlinks, url⟩
    let reportData : SEOReportData :=
      { url := url
        domain := domain
        analyzedAt := now
        technicalSeo := modules.technicalSeo
        contentAudit := modules.contentAudit
        keywords := modules.keywords
        backlinks := modules.backlinks
        executiveSummary := some executiveSummary
        recommendations := some recommendations }
    Except.ok { data := reportData, html := HTMLReportTemplate.generate reportData }

end SEOReportGenerator

/-- The four healthy module payloads bundled for the assembler. -/
def modulesFix : Modules := ⟨techFix, contentFix, kwFix, blFix⟩

/-- Counterexample to C2 as stated: the claim says the host of
"https://Sub.Example.com/path?x=1" is preserved verbatim as
domain "Sub.Example.com", but the WHATWG parser behind `new URL` lowercases
the host, so assembly yields domain "sub.example.com". -/
theorem c2_counterexample_host_is_lowercased :
    (SEOReportGenerator.generateCompleteReport "https://Sub.Example.com/path?x=1" modulesFix
        "2026-01-01T00:00:00.000Z").map (fun res => res.data.domain) =
      Except.ok "sub.example.com" ∧
    ("sub.example.com" : String) ≠ "Sub.Example.com" :=
  ⟨rfl, by decide⟩

/-- C2 (amended): for every url whose hostname parse succeeds, assembly
returns a report whose domain is that hostname — the host component with
scheme, path and query stripped and ASCII uppercase lowercased by the URL
parser — and whose url field is the input url. -/
theorem c2_domain_is_parsed_hostname (url host : String) (modules : Modules)
    (now : String) (h : urlHostname url = some host) :
    ∃ res : ReportResult,
      SEOReportGenerator.generateCompleteReport url modules now = Except.ok res ∧
      res.data.domain = host ∧ res.data.url = url := by
  unfold SEOReportGenerator.generateCompleteReport
  rw [h]
  exact ⟨_, rfl, rfl, rfl⟩

/-- Witness for the amended C2 at the Scenario D url. -/
theorem c2_domain_is_parsed_hostname_witness :
    ∃ res : ReportResult,
      SEOReportGenerator.generateCompleteReport "https://Sub.Example.com/path?x=1" modulesFix
        "2026-01-01T00:00:00.000Z" = Except.ok res ∧
      res.data.domain = "sub.example.com" ∧
      res.data.url = "https://Sub.Example.com/path?x=1" :=
  c2_domain_is_parsed_hostname _ _ modulesFix _ rfl

/-- The parsed request body of the report-generation POST route; any field of
the incoming JSON may be absent. -/
structure ReportRequestData where
  url : Option String
  technicalSeo : Option TechnicalSEOData
  contentAudit : Option ContentAuditData
  keywords : Option KeywordsData
  backlinks : Option BacklinksData
deriving DecidableEq, Repr

/-- A JSON response of the route: a status code together with either the
success body (report data and rendered HTML) or an error body
(error string, and in the catch handler also a message). -/
inductive ApiResponse where
  | success (status : Nat) (reportData : SEOReportData) (htmlContent : String)
  | failure (status : Nat) (error : String) (message : Option String)
deriving DecidableEq, Repr

/-- The report-generation `POST` handler: reject a missing or empty url with
a 400 (`!requestData.url` is true for both), reject any missing module
payload with a 400 naming the four required modules, otherwise run
`generateCompleteReport` and return its data and HTML; a throw is caught and
returned as a 500 with the error message.  The final catch-all branch is
unreachable given the guards above it. -/
def POST (requestData : ReportRequestData) (now : String) : ApiResponse :=
  if requestData.url.getD "" = "" then
    .failure 400 "URL is required in request data" none
  else if requestData.technicalSeo.isNone || requestData.contentAudit.isNone ||
      requestData.keywords.isNone || requestData.backlinks.isNone then
    .failure 400 "All module data is required (technicalSeo, contentAudit, keywords, backlinks)"
      none
  else
    match requestData.url, requestData.technicalSeo, requestData.contentAudit,
        requestData.keywords, requestData.backlinks with
    | some url, some t, some c, some k, some b =>
      match SEOReportGenerator.generateCompleteReport url ⟨t, c, k, b⟩ now with
      | .error e => .failure 500 "Failed to generate report" (some e)
      | .ok result => .success 200 result.data result.html
    | _, _, _, _, _ => .failure 500 "Failed to generate report" none

/-- C8: with a url present, an assembly request missing any of the four
module payloads is rejected with a 400 response whose error string names the
missing module(s) — each of the four module names occurs in the message —
and the response carries no report data or HTML. -/
theorem c8_missing_module_rejected (req : ReportRequestData) (now : String)
    (hurl : req.url.getD "" ≠ "")
    (h : req.technicalSeo = none ∨ req.contentAudit = none ∨
         req.keywords = none ∨ req.backlinks = none) :
    POST req now = ApiResponse.failure 400
      "All module data is required (technicalSeo, contentAudit, keywords, backlinks)" none ∧
    strOccurs "technicalSeo"
      "All module data is required (technicalSeo, contentAudit, keywords, backlinks)" ∧
    strOccurs "contentAudit"
      "All module data is required (technicalSeo, contentAudit, keywords, backlinks)" ∧
    strOccurs "keywords"
      "All module data is required (technicalSeo, contentAudit, keywords, backlinks)" ∧
    strOccurs "backlinks"
      "All module data is required (technicalSeo, contentAudit, keywords, backlinks)" := by
  refine ⟨?_, ⟨"All module data is required (", ", contentAudit, keywords, backlinks)", rfl⟩,
    ⟨"All module data is required (technicalSeo, ", ", keywords, backlinks)", rfl⟩,
    ⟨"All module data is required (technicalSeo, contentAudit, ", ", backlinks)", rfl⟩,
    ⟨"All module data is required (technicalSeo, contentAudit, keywords, ", ")", rfl⟩⟩
  have hcond : (req.technicalSeo.isNone || req.contentAudit.isNone ||
      req.keywords.isNone || req.backlinks.isNone) = true := by
    rcases h with h | h | h | h <;> simp [h]
  unfold POST
  rw [if_neg hurl, if_pos hcond]

/-- Witness for C8: a request with a url but no technicalSeo payload. -/
theorem c8_missing_module_rejected_witness :
    POST ⟨some "https://example.com", none, some contentFix, some kwFix, some blFix⟩
      "2026-01-01T00:00:00.000Z" = ApiResponse.failure 400
      "All module data is required (technicalSeo, contentAudit, keywords, backlinks)" none ∧
    strOccurs "technicalSeo"
      "All module data is required (technicalSeo, contentAudit, keywords, backlinks)" ∧
    strOccurs "contentAudit"
      "All module data is required (technicalSeo, contentAudit, keywords, backlinks)" ∧
    strOccurs "keywords"
      "All module data is required (technicalSeo, contentAudit, keywords, backlinks)" ∧
    strOccurs "backlinks"
      "All module data is required (technicalSeo, contentAudit, keywords, backlinks)" :=
  c8_missing_module_rejected _ "2026-01-01T00:00:00.000Z" (by decide) (Or.inl rfl)
